import Mathlib

/-!
Verification of the update-scheduling and failure-recovery logic of the
`open_banking` Home Assistant custom integration
(`custom_components/open_banking/coordinator.py`, with constants from
`custom_components/open_banking/const.py`).

Modelling conventions:

* Timestamps (`datetime` values, always timezone-aware UTC in the source)
  are modelled as integers (seconds).  `timedelta` values are likewise
  integers in seconds; the source only ever builds them from whole-second
  or whole-hour constants and from differences of timestamps.
* A string persisted in the config entry under `last_update_time` or
  `rate_limit_reset` is modelled by `PersistedValue`: it is `absent` when
  the key is missing or falsy, `malformed` when `datetime.fromisoformat`
  raises `ValueError`/`TypeError` on it, and `parsed t` when it parses to
  the timestamp `t`.  Writing a timestamp with `t.isoformat()` produces a
  string that `fromisoformat` parses back to exactly `t` (both sides are
  aware UTC datetimes), so the write path is modelled as producing
  `parsed t`.
* External side effects that no claim mentions (log lines, the persistent
  notification and the bus event of the 428 branch) are not modelled.
-/

namespace OpenBanking

/-- Constant `UPDATE_INTERVAL_HOURS = 6` from `const.py`. -/
def UPDATE_INTERVAL_HOURS : ℤ := 6

/-- The nominal polling interval `timedelta(hours=UPDATE_INTERVAL_HOURS)`
expressed in seconds. -/
def nominalIntervalSecs : ℤ := UPDATE_INTERVAL_HOURS * 3600

/-- A value stored under a key of the config entry's `data` dict, as read by
the coordinator: `absent` when the key is missing or the value falsy,
`malformed` when present but `datetime.fromisoformat` raises on it, and
`parsed t` when it is an ISO-8601 string for timestamp `t`. -/
inductive PersistedValue where
  | absent
  | malformed
  | parsed (t : ℤ)
deriving DecidableEq, Repr

/-- Embedding of the tail of `_calculate_next_update_interval`
(coordinator.py lines 268-292): the branch taken when no future rate-limit
reset applies.  With no (or an unparseable) `last_update_time` it returns the
nominal interval; otherwise it returns
`normal_interval - (now - last_update)`, or 60 seconds when that residual is
not positive. -/
def fallback_interval (last_update_str : PersistedValue) (now : ℤ) : ℤ :=
  match last_update_str with
  | .absent => nominalIntervalSecs
  | .malformed => nominalIntervalSecs
  | .parsed last_update =>
      if nominalIntervalSecs - (now - last_update) ≤ 0 then 60
      else nominalIntervalSecs - (now - last_update)

/-- Embedding of `_calculate_next_update_interval` (coordinator.py lines
246-292), returning the computed `update_interval` in seconds.  The
`rate_limit_reset` entry value is consulted first: when it parses to a time
strictly in the future the interval is `reset_time - now`; in every other
case (absent, unparseable, or not in the future) control falls through to
the last-update-based computation `fallback_interval`. -/
def calculate_next_update_interval (rate_limit_reset : PersistedValue)
    (last_update_str : PersistedValue) (now : ℤ) : ℤ :=
  match rate_limit_reset with
  | .parsed reset_time =>
      if reset_time > now then reset_time - now
      else fallback_interval last_update_str now
  | .absent => fallback_interval last_update_str now
  | .malformed => fallback_interval last_update_str now

/-- Embedding of `_should_refresh_immediately` (coordinator.py lines
294-320): `True` when no previous update time is recorded, `False` when the
recorded one is unparseable, and otherwise `True` exactly when
`now - last_update` strictly exceeds the nominal interval. -/
def should_refresh_immediately (last_update_str : PersistedValue)
    (now : ℤ) : Bool :=
  match last_update_str with
  | .absent => true
  | .malformed => false
  | .parsed last_update => decide (now - last_update > nominalIntervalSecs)

/-- Claim C1: with a parseable, strictly-future `rate_limit_reset`, the
computed initial poll interval is exactly `reset_time - now`, for every
value (absent, malformed or parsed) of `last_update_time` — which therefore
has no effect on the result. -/
theorem rate_limit_reset_priority (reset_time now : ℤ)
    (last_update_str : PersistedValue) (h : reset_time > now) :
    calculate_next_update_interval (.parsed reset_time) last_update_str now
      = reset_time - now := by
  simp [calculate_next_update_interval, h]

/-- Witness for C1 at `reset_time = 100`, `now = 0`,
`last_update_time` parsed as 5. -/
theorem rate_limit_reset_priority_witness :
    (100 : ℤ) > 0 ∧
      calculate_next_update_interval (.parsed 100) (.parsed 5) 0 = 100 :=
  ⟨by decide, rate_limit_reset_priority 100 0 (.parsed 5) (by decide)⟩

/-- Claim C10: for every persisted `rate_limit_reset` and `last_update_time`
(absent, unparseable or parseable to any timestamp) and every current time,
the computed update interval is strictly positive: the poll timer is always
primed with a positive delay. -/
theorem update_interval_always_positive (rate_limit_reset : PersistedValue)
    (last_update_str : PersistedValue) (now : ℤ) :
    0 < calculate_next_update_interval rate_limit_reset last_update_str now := by
  have hfb : 0 < fallback_interval last_update_str now := by
    cases last_update_str with
    | absent => simp [fallback_interval, nominalIntervalSecs, UPDATE_INTERVAL_HOURS]
    | malformed => simp [fallback_interval, nominalIntervalSecs, UPDATE_INTERVAL_HOURS]
    | parsed t =>
        simp only [fallback_interval]
        split <;> omega
  cases rate_limit_reset with
  | absent => simpa [calculate_next_update_interval] using hfb
  | malformed => simpa [calculate_next_update_interval] using hfb
  | parsed reset_time =>
      simp only [calculate_next_update_interval]
      split
      · omega
      · exact hfb

/-- Counterexample to claim C2 as stated.  Two violations at concrete
inputs, with no rate-limit reset recorded: (a) with no `last_update_time`
recorded the computed interval is the nominal 21600 seconds, not zero
("immediate"); (b) with a `last_update_time` lying `nominal - 30` seconds in
the past the computed interval is the raw residual 30 seconds, not
`max(60, 30) = 60`. -/
theorem no_rate_limit_interval_claim_false :
    (calculate_next_update_interval .absent .absent 0 = 21600 ∧
      (21600 : ℤ) ≠ 0) ∧
    (calculate_next_update_interval .absent (.parsed (-21570)) 0 = 30 ∧
      (30 : ℤ) ≠ max 60 (nominalIntervalSecs - (0 - (-21570)))) := by
  refine ⟨⟨?_, by decide⟩, ⟨?_, ?_⟩⟩ <;>
    simp [calculate_next_update_interval, fallback_interval,
      nominalIntervalSecs, UPDATE_INTERVAL_HOURS]

/-- Claim C2 as amended: with no future rate-limit reset recorded, if a
parseable `last_update_time` is recorded the interval is
`nominalInterval - (now - lastUpdateTime)` when that residual is positive
and 60 seconds otherwise (no 60-second floor is applied to a positive
residual); if no `last_update_time` is recorded (or it is unparseable) the
interval is the nominal 6 hours — immediacy of the first refresh is handled
by the separate needs-immediate-refresh flag, not by a zero interval. -/
theorem no_rate_limit_interval (rate_limit_reset : PersistedValue) (now : ℤ)
    (hnf : ∀ r : ℤ, rate_limit_reset = .parsed r → r ≤ now) :
    calculate_next_update_interval rate_limit_reset .absent now
        = nominalIntervalSecs ∧
    calculate_next_update_interval rate_limit_reset .malformed now
        = nominalIntervalSecs ∧
    (∀ t : ℤ,
      calculate_next_update_interval rate_limit_reset (.parsed t) now
        = if nominalIntervalSecs - (now - t) ≤ 0 then 60
          else nominalIntervalSecs - (now - t)) := by
  have hcalc : ∀ lus : PersistedValue,
      calculate_next_update_interval rate_limit_reset lus now
        = fallback_interval lus now := by
    intro lus
    cases rate_limit_reset with
    | absent => rfl
    | malformed => rfl
    | parsed r =>
        have hr : r ≤ now := hnf r rfl
        simp [calculate_next_update_interval, not_lt.mpr hr]
  refine ⟨?_, ?_, ?_⟩
  · rw [hcalc]; rfl
  · rw [hcalc]; rfl
  · intro t; rw [hcalc]; rfl

/-- Witness for the amended C2 at a rate-limit reset parsed to 5 with
`now = 10` (a recorded but past reset) and `last_update_time` parsed to
`-21570`: the residual 30 is returned as-is. -/
theorem no_rate_limit_interval_witness :
    (∀ r : ℤ, PersistedValue.parsed 5 = PersistedValue.parsed r → r ≤ 10) ∧
      calculate_next_update_interval (.parsed 5) (.parsed (-21560)) 10 = 30 := by
  have h : ∀ r : ℤ, PersistedValue.parsed 5 = PersistedValue.parsed r → r ≤ 10 := by
    intro r hr
    cases hr
    decide
  refine ⟨h, ?_⟩
  have := (no_rate_limit_interval (.parsed 5) 10 h).2.2 (-21560)
  rw [this]
  decide

/-- Counterexample to claim C3 as stated: with `last_update_time` exactly
`nominalInterval` (21600 seconds) in the past of `now` and no rate limit,
the needs-immediate-refresh flag computed at construction is `false`, not
`true` (the source compares with a strict `>`). -/
theorem refresh_exactly_nominal_claim_false :
    should_refresh_immediately (.parsed 0) 21600 = false ∧
      (21600 : ℤ) - 0 = nominalIntervalSecs := by
  constructor
  · decide
  · simp [nominalIntervalSecs, UPDATE_INTERVAL_HOURS]

/-- Claim C3 as amended: the needs-immediate-refresh flag is `true` when no
`last_update_time` is recorded; when one is recorded and parseable the flag
is `true` exactly when `now - lastUpdateTime` STRICTLY exceeds the nominal
interval — in particular it is `false` when the last update lies exactly
`nominalInterval` in the past; an unparseable recorded value yields
`false`. -/
theorem should_refresh_immediately_spec :
    (∀ now : ℤ, should_refresh_immediately .absent now = true) ∧
    (∀ now : ℤ, should_refresh_immediately .malformed now = false) ∧
    (∀ t now : ℤ, now - t > nominalIntervalSecs →
        should_refresh_immediately (.parsed t) now = true) ∧
    (∀ t now : ℤ, should_refresh_immediately (.parsed t) now = true →
        now - t > nominalIntervalSecs) ∧
    (∀ t : ℤ,
        should_refresh_immediately (.parsed t) (t + nominalIntervalSecs)
          = false) := by
  refine ⟨fun _ => rfl, fun _ => rfl, ?_, ?_, ?_⟩
  · intro t now h
    simpa [should_refresh_immediately] using h
  · intro t now h
    simpa [should_refresh_immediately] using h
  · intro t
    simp [should_refresh_immediately]

/-- Witness for the amended C3: instantiating its two conditional conjuncts
at concrete inputs (one second beyond the nominal interval the flag is true;
a true flag at `now - t = 21601` implies strict excess). -/
theorem should_refresh_immediately_spec_witness :
    should_refresh_immediately (.parsed 0) 21601 = true ∧
      (21601 : ℤ) - 0 > nominalIntervalSecs :=
  ⟨should_refresh_immediately_spec.2.2.1 0 21601
      (by simp [nominalIntervalSecs, UPDATE_INTERVAL_HOURS]),
    should_refresh_immediately_spec.2.2.2.1 0 21601 (by decide)⟩

/-- Helper for `pySplit`: walks the character list, accumulating the
current word (reversed) and emitting it at each whitespace boundary. -/
def pySplitAux : List Char → List Char → List String
  | [], acc => if acc = [] then [] else [String.mk acc.reverse]
  | c :: cs, acc =>
      if c.isWhitespace then
        (if acc = [] then pySplitAux cs []
         else String.mk acc.reverse :: pySplitAux cs [])
      else pySplitAux cs (c :: acc)

/-- Python's `str.split()` with no argument: split on runs of whitespace,
dropping empty pieces. -/
def pySplit (s : String) : List String := pySplitAux s.data []

/-- Value of a list of decimal digit characters. -/
def natOfDigits (cs : List Char) : ℕ :=
  cs.foldl (fun n c => 10 * n + (c.toNat - 48)) 0

/-- Whether `cs` is a non-empty string of decimal digits. -/
def isDigitList (cs : List Char) : Bool :=
  !cs.isEmpty && cs.all Char.isDigit

/-- Python's `int(s)` on a whitespace-free token: an optional sign followed
by at least one decimal digit; `none` models the `ValueError` raised
otherwise.  (Python additionally allows underscore digit grouping, which no
provider message uses; it is not modelled.) -/
def pyToInt (s : String) : Option ℤ :=
  match s.data with
  | '-' :: rest =>
      if isDigitList rest then some (-(natOfDigits rest : ℤ)) else none
  | '+' :: rest =>
      if isDigitList rest then some ((natOfDigits rest : ℤ)) else none
  | cs => if isDigitList cs then some ((natOfDigits cs : ℤ)) else none

/-- Embedding of the wait-time extraction of the 429 branch
(coordinator.py line 181): `int(e.response_body.get("detail", "").split()[-2])`.
`none` models the exception path: `IndexError` when the split list has fewer
than two tokens, `ValueError` when `int` cannot parse the token. -/
def parse_wait (detail : String) : Option ℤ :=
  match (pySplit detail).reverse with
  | _ :: second_to_last :: _ => pyToInt second_to_last
  | _ => none

/-- A bank account held by the wrapper.  The mutable `_last_updated` field
(an ISO-8601 string in the source) is modelled as an optional timestamp. -/
structure BankAccount where
  account_id : String
  last_updated : Option ℤ
deriving DecidableEq, Repr

/-- A `NordigenAPIError` as seen by the coordinator: its `status_code` and
the string `e.response_body.get("detail", "")`. -/
structure APIError where
  status_code : ℤ
  detail : String
deriving DecidableEq, Repr

/-- Outcome of one `wrapper.update_all_accounts` call: either it returns and
the wrapper then holds `accounts`, or it raises a `NordigenAPIError`. -/
inductive FetchResult where
  | ok (accounts : List BankAccount)
  | err (e : APIError)
deriving DecidableEq, Repr

/-- Outcome of one `wrapper.refresh_access_token` call: on success the
wrapper's `refresh_token` property then yields `new_refresh_token`;
otherwise a `NordigenAPIError` is raised. -/
inductive RefreshResult where
  | ok (new_refresh_token : Option String)
  | err (e : APIError)
deriving DecidableEq, Repr

/-- The remote provider's behaviour during one update cycle: the outcome of
the first fetch, and — consulted only on the 401 path — the outcomes of the
token refresh and of the retry fetch. -/
structure Provider where
  fetch1 : FetchResult
  refresh : RefreshResult
  fetch2 : FetchResult
deriving DecidableEq, Repr

/-- The persisted config-entry fields the coordinator reads and writes. -/
structure EntryData where
  last_update_time : PersistedValue
  rate_limit_reset : PersistedValue
  refresh_token : Option String
deriving DecidableEq, Repr

/-- How one call of `_async_update_data` terminates.
`success accounts` models returning the account list; `noData` models the
429 branch's `return None`; `authFailed` models
`raise UpdateFailed("Nordigen API authentication failed")`; `apiFailed s`
models `raise UpdateFailed(f"Nordigen API update failed: {e}")` for status
`s` (the 428 notification/event side effects are external and not
modelled); `genericFailed` models the empty-accounts `UpdateFailed` raised
in the `try` body, caught by the trailing `except Exception` and re-raised
as `UpdateFailed("Error updating from Nordigen")`; `uncaughtExc` models an
exception (`IndexError`/`ValueError` from the 429 wait-time parse) escaping
the method, since it is raised inside the `except NordigenAPIError` handler
where no sibling handler applies. -/
inductive CycleOutcome where
  | success (accounts : List BankAccount)
  | noData
  | authFailed
  | apiFailed (status_code : ℤ)
  | genericFailed
  | uncaughtExc
deriving DecidableEq, Repr

/-- State after one `_async_update_data` call: the persisted entry data, the
coordinator's held snapshot `self.data`, the outcome, whether
`self.update_interval` was reassigned (and to how many seconds), whether
`async_call_later` scheduled a one-shot wake-up (and at how many seconds),
and how many times `wrapper.update_all_accounts` was invoked. -/
structure CycleResult where
  entry : EntryData
  data : Option (List BankAccount)
  outcome : CycleOutcome
  update_interval : Option ℤ
  call_later : Option ℤ
  fetch_calls : ℕ
deriving DecidableEq, Repr

/-- Embedding of `_async_update_data` (coordinator.py lines 109-244),
acting on the persisted entry `st` and the held snapshot `data0` at time
`now`, with the provider behaving as `p`.  All `datetime.now(timezone.utc)`
reads within the cycle are modelled by the single timestamp `now`.

Branches, in source order: a successful fetch with an empty account list
raises `UpdateFailed` (re-raised generically by the trailing handler); a
non-empty fetch stamps every account's `_last_updated` with `now`, commits
`self.data`, persists `last_update_time = now`
(`_update_config_entry_timestamp`, lines 322-337) and returns the accounts.
On `NordigenAPIError`: status 401 refreshes the token, persists the new
refresh token, retries the fetch once and commits whatever the retry
returns (no empty-list check on this path); status 429 parses the wait
time, persists `rate_limit_reset = now + wait`, reassigns
`self.update_interval`, schedules a wake-up and returns `None`; every other
status falls through to `raise UpdateFailed(...)`. -/
def async_update_data (st : EntryData) (data0 : Option (List BankAccount))
    (p : Provider) (now : ℤ) : CycleResult :=
  match p.fetch1 with
  | .ok accounts =>
      if accounts = [] then
        ⟨st, data0, .genericFailed, none, none, 1⟩
      else
        let stamped := accounts.map (fun a => { a with last_updated := some now })
        ⟨{ st with last_update_time := .parsed now }, some stamped,
          .success stamped, none, none, 1⟩
  | .err e =>
      if e.status_code = 401 then
        match p.refresh with
        | .err _ => ⟨st, data0, .authFailed, none, none, 1⟩
        | .ok newTok =>
            let st1 := { st with refresh_token := newTok }
            match p.fetch2 with
            | .err _ => ⟨st1, data0, .authFailed, none, none, 2⟩
            | .ok accounts2 =>
                ⟨st1, some accounts2, .success accounts2, none, none, 2⟩
      else if e.status_code = 429 then
        match parse_wait e.detail with
        | none => ⟨st, data0, .uncaughtExc, none, none, 1⟩
        | some wait_time =>
            ⟨{ st with rate_limit_reset := .parsed (now + wait_time) }, data0,
              .noData, some wait_time, some wait_time, 1⟩
      else
        ⟨st, data0, .apiFailed e.status_code, none, none, 1⟩

/-- Claim C4: a cycle failing with provider status 429 and detail message
"Request limit exceeded, retry after 120 seconds" extracts wait = 120
seconds from the second-to-last whitespace token, persists
`rate_limit_reset = now + 120`, sets the next poll interval to exactly 120
seconds, schedules a one-shot wake-up at 120 seconds, and returns no-data
without raising any error — for every prior entry state, held snapshot and
clock. -/
theorem rate_limited_cycle_120 (st : EntryData)
    (data0 : Option (List BankAccount)) (rf : RefreshResult)
    (f2 : FetchResult) (now : ℤ) :
    parse_wait "Request limit exceeded, retry after 120 seconds" = some 120 ∧
    (async_update_data st data0
        ⟨.err ⟨429, "Request limit exceeded, retry after 120 seconds"⟩, rf, f2⟩
        now).entry.rate_limit_reset = .parsed (now + 120) ∧
    (async_update_data st data0
        ⟨.err ⟨429, "Request limit exceeded, retry after 120 seconds"⟩, rf, f2⟩
        now).update_interval = some 120 ∧
    (async_update_data st data0
        ⟨.err ⟨429, "Request limit exceeded, retry after 120 seconds"⟩, rf, f2⟩
        now).call_later = some 120 ∧
    (async_update_data st data0
        ⟨.err ⟨429, "Request limit exceeded, retry after 120 seconds"⟩, rf, f2⟩
        now).outcome = .noData := by
  have hp : parse_wait "Request limit exceeded, retry after 120 seconds"
      = some 120 := by decide
  refine ⟨hp, ?_, ?_, ?_, ?_⟩ <;> simp [async_update_data, hp]

/-- Claim C5, evaluated at the failing inputs: a 429 whose detail is the
empty string makes `split()[-2]` raise `IndexError`, and a 429 whose detail
is "Request limit exceeded" makes `int("limit")` raise `ValueError`; both
exceptions are raised inside the `except NordigenAPIError` handler, which
no sibling handler covers, so they escape `_async_update_data`.  No
300-second (or any) default wait is applied: the persisted state is
untouched, the poll interval is not reassigned and no wake-up is
scheduled. -/
theorem rate_limited_unparseable_crashes :
    parse_wait "" = none ∧
    parse_wait "Request limit exceeded" = none ∧
    async_update_data ⟨.absent, .absent, none⟩ none
        ⟨.err ⟨429, ""⟩, .ok none, .ok []⟩ 0
      = ⟨⟨.absent, .absent, none⟩, none, .uncaughtExc, none, none, 1⟩ ∧
    async_update_data ⟨.absent, .absent, none⟩ none
        ⟨.err ⟨429, "Request limit exceeded"⟩, .ok none, .ok []⟩ 0
      = ⟨⟨.absent, .absent, none⟩, none, .uncaughtExc, none, none, 1⟩ :=
  ⟨by decide, by decide, by decide, by decide⟩

/-- Claim C6: on a 401, the coordinator refreshes the token, persists the
new refresh token, and retries the fetch exactly once (two
`update_all_accounts` calls).  If the retry succeeds the cycle commits and
returns the retried accounts, the new token already persisted; if the retry
fails the cycle raises the authentication `UpdateFailed` with the new token
still persisted; if the refresh itself fails the cycle raises the same
error after a single fetch, entry state unchanged.  A persisted token is
never lost to an unrelated later cycle: every cycle whose first fetch
succeeds, or fails with a status other than 401, leaves `refresh_token`
unchanged. -/
theorem auth_retry_behaviour :
    (∀ (st : EntryData) (data0 : Option (List BankAccount)) (now : ℤ)
        (e : APIError) (newTok : Option String)
        (accounts2 : List BankAccount), e.status_code = 401 →
      (async_update_data st data0 ⟨.err e, .ok newTok, .ok accounts2⟩
          now).entry.refresh_token = newTok ∧
      (async_update_data st data0 ⟨.err e, .ok newTok, .ok accounts2⟩
          now).data = some accounts2 ∧
      (async_update_data st data0 ⟨.err e, .ok newTok, .ok accounts2⟩
          now).outcome = .success accounts2 ∧
      (async_update_data st data0 ⟨.err e, .ok newTok, .ok accounts2⟩
          now).fetch_calls = 2) ∧
    (∀ (st : EntryData) (data0 : Option (List BankAccount)) (now : ℤ)
        (e e2 : APIError) (newTok : Option String), e.status_code = 401 →
      (async_update_data st data0 ⟨.err e, .ok newTok, .err e2⟩
          now).entry.refresh_token = newTok ∧
      (async_update_data st data0 ⟨.err e, .ok newTok, .err e2⟩
          now).outcome = .authFailed ∧
      (async_update_data st data0 ⟨.err e, .ok newTok, .err e2⟩
          now).data = data0 ∧
      (async_update_data st data0 ⟨.err e, .ok newTok, .err e2⟩
          now).fetch_calls = 2) ∧
    (∀ (st : EntryData) (data0 : Option (List BankAccount)) (now : ℤ)
        (e e2 : APIError) (f2 : FetchResult), e.status_code = 401 →
      (async_update_data st data0 ⟨.err e, .err e2, f2⟩
          now).outcome = .authFailed ∧
      (async_update_data st data0 ⟨.err e, .err e2, f2⟩ now).entry = st ∧
      (async_update_data st data0 ⟨.err e, .err e2, f2⟩
          now).fetch_calls = 1) ∧
    (∀ (st : EntryData) (data0 : Option (List BankAccount)) (now : ℤ)
        (e : APIError) (rf : RefreshResult) (f2 : FetchResult),
        e.status_code ≠ 401 →
      (async_update_data st data0 ⟨.err e, rf, f2⟩
          now).entry.refresh_token = st.refresh_token) ∧
    (∀ (st : EntryData) (data0 : Option (List BankAccount)) (now : ℤ)
        (accounts : List BankAccount) (rf : RefreshResult)
        (f2 : FetchResult),
      (async_update_data st data0 ⟨.ok accounts, rf, f2⟩
          now).entry.refresh_token = st.refresh_token) := by
  refine ⟨?_, ?_, ?_, ?_, ?_⟩
  · intro st data0 now e newTok accounts2 h
    refine ⟨?_, ?_, ?_, ?_⟩ <;> simp [async_update_data, h]
  · intro st data0 now e e2 newTok h
    refine ⟨?_, ?_, ?_, ?_⟩ <;> simp [async_update_data, h]
  · intro st data0 now e e2 f2 h
    refine ⟨?_, ?_, ?_⟩ <;> simp [async_update_data, h]
  · intro st data0 now e rf f2 h
    simp only [async_update_data]
    rw [if_neg h]
    by_cases h429 : e.status_code = 429
    · rw [if_pos h429]
      cases hw : parse_wait e.detail <;> simp
    · rw [if_neg h429]
  · intro st data0 now accounts rf f2
    by_cases hacc : accounts = [] <;> simp [async_update_data, hacc]

/-- Witness for C6: the 401-refresh-retry-success conjunct and the
unrelated-failure conjunct, instantiated at concrete inputs. -/
theorem auth_retry_behaviour_witness :
    ((async_update_data ⟨.absent, .absent, some "old"⟩ none
        ⟨.err ⟨401, ""⟩, .ok (some "new"), .ok [⟨"a", none⟩]⟩
        0).entry.refresh_token = some "new" ∧
      (async_update_data ⟨.absent, .absent, some "old"⟩ none
        ⟨.err ⟨401, ""⟩, .ok (some "new"), .ok [⟨"a", none⟩]⟩
        0).data = some [⟨"a", none⟩] ∧
      (async_update_data ⟨.absent, .absent, some "old"⟩ none
        ⟨.err ⟨401, ""⟩, .ok (some "new"), .ok [⟨"a", none⟩]⟩
        0).outcome = .success [⟨"a", none⟩] ∧
      (async_update_data ⟨.absent, .absent, some "old"⟩ none
        ⟨.err ⟨401, ""⟩, .ok (some "new"), .ok [⟨"a", none⟩]⟩
        0).fetch_calls = 2) ∧
    (async_update_data ⟨.absent, .absent, some "new"⟩ none
        ⟨.err ⟨500, ""⟩, .ok none, .ok []⟩
        0).entry.refresh_token = some "new" :=
  ⟨auth_retry_behaviour.1 ⟨.absent, .absent, some "old"⟩ none 0 ⟨401, ""⟩
      (some "new") [⟨"a", none⟩] rfl,
    auth_retry_behaviour.2.2.2.1 ⟨.absent, .absent, some "new"⟩ none 0
      ⟨500, ""⟩ (.ok none) (.ok []) (by decide)⟩

/-- Claim C7, evaluated at the failing input: holding a previously good
non-empty snapshot, a cycle whose first fetch fails with 401, whose token
refresh succeeds and whose retry fetch returns zero accounts COMMITS the
empty snapshot (`self.data = []`, coordinator.py line 171) and reports the
cycle as successful — the empty-accounts check of the main path (line 129)
is missing from the retry path, so no `UpdateFailed` is signalled and the
good snapshot is replaced by an empty one.  On the main path, by contrast,
a zero-account fetch fails the cycle and leaves the held snapshot
unchanged. -/
theorem empty_retry_commits_empty_snapshot :
    (async_update_data ⟨.parsed 0, .absent, some "tok"⟩
        (some [⟨"acc1", some 0⟩])
        ⟨.err ⟨401, ""⟩, .ok (some "tok2"), .ok []⟩ 100).data = some [] ∧
    (async_update_data ⟨.parsed 0, .absent, some "tok"⟩
        (some [⟨"acc1", some 0⟩])
        ⟨.err ⟨401, ""⟩, .ok (some "tok2"), .ok []⟩ 100).outcome
      = .success [] ∧
    (async_update_data ⟨.parsed 0, .absent, some "tok"⟩
        (some [⟨"acc1", some 0⟩])
        ⟨.ok [], .ok (some "tok2"), .ok []⟩ 100).data
      = some [⟨"acc1", some 0⟩] ∧
    (async_update_data ⟨.parsed 0, .absent, some "tok"⟩
        (some [⟨"acc1", some 0⟩])
        ⟨.ok [], .ok (some "tok2"), .ok []⟩ 100).outcome
      = .genericFailed :=
  ⟨by decide, by decide, by decide, by decide⟩

/-- Counterexample to claim C8 as stated: a successful cycle does NOT clear
a stale `rate_limit_reset` from the persisted state — with a (long past)
reset time 100 persisted and a successful fetch at `now = 200`, the
post-cycle entry still carries `rate_limit_reset` parsed as 100. -/
theorem success_does_not_clear_rate_limit :
    (async_update_data ⟨.absent, .parsed 100, none⟩ none
        ⟨.ok [⟨"acc1", none⟩], .ok none, .ok []⟩ 200).entry.rate_limit_reset
      = .parsed 100 ∧
    PersistedValue.parsed 100 ≠ .absent ∧
    (async_update_data ⟨.absent, .parsed 100, none⟩ none
        ⟨.ok [⟨"acc1", none⟩], .ok none, .ok []⟩ 200).outcome
      = .success [⟨"acc1", some 200⟩] :=
  ⟨by decide, by decide, by decide⟩

/-- Claim C8 as amended: every successful (main-path, non-empty) cycle
replaces the held snapshot with the fetched accounts all stamped with the
uniform cycle timestamp `now`, returns them, and persists
`last_update_time = now` — but leaves any persisted `rate_limit_reset`
untouched (a stale value is merely ignored, once past, by the interval
computation); the refresh token is also unchanged. -/
theorem successful_cycle_commits_snapshot (st : EntryData)
    (data0 : Option (List BankAccount)) (rf : RefreshResult)
    (f2 : FetchResult) (now : ℤ) (accounts : List BankAccount)
    (hne : accounts ≠ []) :
    (async_update_data st data0 ⟨.ok accounts, rf, f2⟩ now).data
        = some (accounts.map fun a => { a with last_updated := some now }) ∧
    (∀ b ∈ accounts.map (fun a => { a with last_updated := some now }),
        b.last_updated = some now) ∧
    (async_update_data st data0 ⟨.ok accounts, rf, f2⟩ now).outcome
        = .success (accounts.map fun a => { a with last_updated := some now }) ∧
    (async_update_data st data0 ⟨.ok accounts, rf, f2⟩
        now).entry.last_update_time = .parsed now ∧
    (async_update_data st data0 ⟨.ok accounts, rf, f2⟩
        now).entry.rate_limit_reset = st.rate_limit_reset ∧
    (async_update_data st data0 ⟨.ok accounts, rf, f2⟩
        now).entry.refresh_token = st.refresh_token := by
  refine ⟨?_, ?_, ?_, ?_, ?_, ?_⟩
  · simp [async_update_data, hne]
  · intro b hb
    rcases List.mem_map.mp hb with ⟨a, _, rfl⟩
    rfl
  · simp [async_update_data, hne]
  · simp [async_update_data, hne]
  · simp [async_update_data, hne]
  · simp [async_update_data, hne]

/-- Witness for the amended C8 at a singleton account list fetched at
`now = 7` over a state carrying a parsed reset time 3. -/
theorem successful_cycle_commits_snapshot_witness :
    (async_update_data ⟨.absent, .parsed 3, some "t"⟩ none
        ⟨.ok [⟨"a", none⟩], .ok none, .ok []⟩ 7).data
      = some [⟨"a", some 7⟩] ∧
    (async_update_data ⟨.absent, .parsed 3, some "t"⟩ none
        ⟨.ok [⟨"a", none⟩], .ok none, .ok []⟩ 7).entry.rate_limit_reset
      = .parsed 3 := by
  have h := successful_cycle_commits_snapshot ⟨.absent, .parsed 3, some "t"⟩
    none (.ok none) (.ok []) 7 [⟨"a", none⟩] (by decide)
  exact ⟨h.1, h.2.2.2.2.1⟩

/-- The poll decision computed at coordinator construction (coordinator.py
lines 37 and 47): the initial `update_interval` together with the
needs-immediate-refresh flag, both derived from the persisted entry and
the construction-time clock. -/
structure PollDecision where
  update_interval : ℤ
  needs_immediate_refresh : Bool
deriving DecidableEq, Repr

/-- Embedding of the coordinator constructor's scheduling decision:
`_calculate_next_update_interval` on the entry's `rate_limit_reset` and
`last_update_time`, paired with `_should_refresh_immediately`. -/
def construct_decision (e : EntryData) (now : ℤ) : PollDecision :=
  ⟨calculate_next_update_interval e.rate_limit_reset e.last_update_time now,
    should_refresh_immediately e.last_update_time now⟩

/-- The coordinator's in-memory recovery timestamps after parsing
(coordinator.py lines 53-72): `self.last_update_time` and
`self.rate_limit_reset`, each a datetime or None. -/
structure RecoveryState where
  last_update_time : Option ℤ
  rate_limit_reset : Option ℤ
deriving DecidableEq, Repr

/-- Persisting an in-memory timestamp writes `t.isoformat()` (coordinator.py
lines 196 and 335), an ISO-8601 string that `datetime.fromisoformat`
parses back to exactly `t` (both are aware UTC datetimes); an absent
in-memory value corresponds to an absent key. -/
def persistField : Option ℤ → PersistedValue
  | none => .absent
  | some t => .parsed t

/-- The config-entry data obtained by persisting the in-memory recovery
state (the coordinator writes through on every change); the refresh token
rides along unchanged and plays no part in the poll decision. -/
def persistState (s : RecoveryState) (tok : Option String) : EntryData :=
  ⟨persistField s.last_update_time, persistField s.rate_limit_reset, tok⟩

/-- The interval arithmetic of `_calculate_next_update_interval`
(coordinator.py lines 257-264 and 272-288) applied directly to the
in-memory datetime values, i.e. after `fromisoformat` has already
happened: the pre-restart coordinator's own interval computation. -/
def interval_of_memory (s : RecoveryState) (now : ℤ) : ℤ :=
  let fb :=
    match s.last_update_time with
    | none => nominalIntervalSecs
    | some last_update =>
        if nominalIntervalSecs - (now - last_update) ≤ 0 then 60
        else nominalIntervalSecs - (now - last_update)
  match s.rate_limit_reset with
  | some reset_time => if reset_time > now then reset_time - now else fb
  | none => fb

/-- The flag arithmetic of `_should_refresh_immediately` (coordinator.py
lines 306-317) applied directly to the in-memory datetime value. -/
def refresh_of_memory (s : RecoveryState) (now : ℤ) : Bool :=
  match s.last_update_time with
  | none => true
  | some last_update => decide (now - last_update > nominalIntervalSecs)

/-- The poll decision induced by the in-memory recovery state at `now`. -/
def decision_of_memory (s : RecoveryState) (now : ℤ) : PollDecision :=
  ⟨interval_of_memory s now, refresh_of_memory s now⟩

/-- Claim C9: persisting the coordinator's recovery state (timestamps
written as ISO-8601 strings) and reconstructing a coordinator from the
persisted entry at an unchanged clock reproduces exactly the poll decision
— computed interval and needs-immediate-refresh flag — that the in-memory
state induces: the serialisation round trip loses nothing the scheduling
decision depends on. -/
theorem restart_round_trip (s : RecoveryState) (tok : Option String)
    (now : ℤ) :
    construct_decision (persistState s tok) now = decision_of_memory s now := by
  cases s with
  | mk lut rlr => cases lut <;> cases rlr <;> rfl

end OpenBanking
